import Mathlib

/-!
Formal model of `src/app.py` (Time x Money Damages Calculator).

Modelling conventions:
* Python floats are modelled by `ℚ`; float literals such as `0.01` become the
  decimal rationals they denote.  The design document states that all
  arithmetic is exact within floating precision, and no claim settled here
  depends on float rounding error.
* Calendar dates (`datetime.date`) are modelled by their proleptic ordinal
  (days since a fixed epoch), `ℤ`; `<` on dates is `<` on ordinals.
* Timezone-aware datetimes are modelled by local wall-clock seconds, `ℚ`.
  `start_of_day` and `end_of_day` both attach the same `ZoneInfo` object
  (the module-level `LA_TZ`), and CPython subtracts two aware datetimes that
  carry the *identical* `tzinfo` object naively (pure wall-clock difference,
  no UTC-offset adjustment), so subtraction of these instants is exactly the
  difference of the wall-clock second values modelled here, on every date
  (including DST-transition days).  `time.max` is `23:59:59.999999`, so the
  end-of-day instant sits `86399.999999` seconds after midnight.
* `float("nan")` results are modelled by `Option.none`; `math.isfinite r`
  holds exactly on `Option.some` values of this model (no infinity can arise
  in `solve_rate_for_target`: its finite branch divides finite rationals by
  a positive value).
* A raised exception, and `st.error(...)` followed by `st.stop()`, are both
  modelled by `Except.error` with the reported message.
-/

/-- Time units supported by the app: the keys of the `TIME_UNITS` dict of
`src/app.py`, lines 42-47. -/
inductive TimeUnit where
  | second
  | minute
  | hour
  | day
deriving DecidableEq, Repr

/-- Seconds-per-unit table: the `TIME_UNITS` dict of `src/app.py`,
lines 42-47. -/
def TIME_UNITS : TimeUnit → ℚ
  | TimeUnit.second => 1
  | TimeUnit.minute => 60
  | TimeUnit.hour => 3600
  | TimeUnit.day => 86400

/-- Coin preset table `COIN_PRESETS` of `src/app.py`, lines 49-55. -/
def COIN_PRESETS : List (String × ℚ) :=
  [("Penny", 1/100), ("Nickel", 5/100), ("Dime", 10/100), ("Quarter", 25/100), ("Dollar", 1)]

/-- Model of `start_of_day` (`src/app.py` lines 60-62): local midnight of the
given calendar date, as wall-clock seconds. -/
def start_of_day (d : ℤ) : ℚ := 86400 * d

/-- Model of `end_of_day` (`src/app.py` lines 64-66): `23:59:59.999999` local
time on the given calendar date (python `time.max`, microsecond resolution),
as wall-clock seconds. -/
def end_of_day (d : ℤ) : ℚ := 86400 * d + 86399999999/1000000

/-- Model of `elapsed_seconds` (`src/app.py` lines 68-70):
`max((end_dt - start_dt).total_seconds(), 0.0)`. -/
def elapsed_seconds (start_dt end_dt : ℚ) : ℚ := max (end_dt - start_dt) 0

/-- Result of `all_units` (`src/app.py` lines 72-78): the dict with keys
`seconds`, `minutes`, `hours`, `days`. -/
structure AllUnits where
  seconds : ℚ
  minutes : ℚ
  hours : ℚ
  days : ℚ
deriving DecidableEq, Repr

/-- Model of `all_units` (`src/app.py` lines 72-78). -/
def all_units (seconds : ℚ) : AllUnits :=
  { seconds := seconds, minutes := seconds / 60, hours := seconds / 3600, days := seconds / 86400 }

/-- The unit conversion the design document calls `toUnit`; written inline in
the source as `seconds / TIME_UNITS[unit]` (`src/app.py` lines 81 and 85). -/
def toUnit (seconds : ℚ) (u : TimeUnit) : ℚ := seconds / TIME_UNITS u

/-- Model of `compute_amount` (`src/app.py` lines 80-82). -/
def compute_amount (seconds : ℚ) (unit : TimeUnit) (rate_per_unit : ℚ) : ℚ :=
  seconds / TIME_UNITS unit * rate_per_unit

/-- Model of `solve_rate_for_target` (`src/app.py` lines 84-86):
`target_amount / units if units > 0 else float("nan")`, with the NaN result
modelled as `none`. -/
def solve_rate_for_target (seconds : ℚ) (unit : TimeUnit) (target_amount : ℚ) : Option ℚ :=
  if 0 < seconds / TIME_UNITS unit then some (target_amount / (seconds / TIME_UNITS unit))
  else none

/-- Model of the rate-solving caller (`src/app.py` lines 311-318): the app
calls `solve_rate_for_target`, then branches on `math.isfinite(req_rate)`,
showing the solved rate on the finite branch and
`st.error("Cannot solve for rate: zero elapsed units.")` otherwise. -/
def target_solve_report (seconds : ℚ) (unit : TimeUnit) (target_amount : ℚ) : Except String ℚ :=
  match solve_rate_for_target seconds unit target_amount with
  | some r => Except.ok r
  | none => Except.error "Cannot solve for rate: zero elapsed units."

/-- One row of the scenario grid: the dict literal of `src/app.py`
lines 94-101.  The `% Δ` field is `Option ℚ`, `none` modelling `np.nan`. -/
structure ScenarioRow where
  time_unit : TimeUnit
  coin : String
  rate_per_unit : ℚ
  amount : ℚ
  abs_delta : ℚ
  pct_delta : Option ℚ
deriving DecidableEq, Repr

/-- Row construction inside the loop of `closest_scenarios` (`src/app.py`
lines 92-101): `amt = compute_amount(...)`, `diff = abs(amt - target)`, and
the percent field is `(diff / target_amount * 100.0) if target_amount else
np.nan` (python truthiness: the guard holds exactly when the target is
nonzero). -/
def scenario_row (seconds : ℚ) (tu : TimeUnit) (name : String) (val : ℚ) (target_amount : ℚ) :
    ScenarioRow :=
  let amt := compute_amount seconds tu val
  let diff := |amt - target_amount|
  { time_unit := tu, coin := name, rate_per_unit := val, amount := amt, abs_delta := diff,
    pct_delta := if target_amount = 0 then none else some (diff / target_amount * 100) }

/-- The `rows` list built by the nested loops of `closest_scenarios`
(`src/app.py` lines 89-101): unit-major, preset-minor enumeration order. -/
def enum_rows (seconds target_amount : ℚ) (units_list : List TimeUnit)
    (coins_list : List (String × ℚ)) : List ScenarioRow :=
  units_list.flatMap (fun tu => coins_list.map (fun c => scenario_row seconds tu c.1 c.2 target_amount))

/-- Insertion of a row into a list already ordered by ascending `abs_delta`. -/
def insert_by_delta (r : ScenarioRow) : List ScenarioRow → List ScenarioRow
  | [] => [r]
  | x :: xs => if r.abs_delta ≤ x.abs_delta then r :: x :: xs else x :: insert_by_delta r xs

/-- A sort of the rows by ascending `abs_delta`, modelling
`df.sort_values(by=["Abs Δ from target"], ascending=True)` (`src/app.py`
line 103).  Caveat: pandas is called with its default `kind="quicksort"`,
which makes the key column non-decreasing but leaves the relative order of
tied keys implementation-defined (numpy introsort, version-dependent); only
the non-decreasing-key and permutation facts of this model are faithful to
the source, not the order it happens to give tied rows. -/
def sort_values_by_delta : List ScenarioRow → List ScenarioRow
  | [] => []
  | x :: xs => insert_by_delta x (sort_values_by_delta xs)

/-- Model of `closest_scenarios` (`src/app.py` lines 88-104).  When both
input lists are nonempty it returns `(df.head(top_k), df)` with `df` the
delta-sorted grid.  When `rows` is empty (empty unit list or empty preset
list), `pd.DataFrame(rows)` is an empty frame with *no columns*, and
`df.sort_values(by=["Abs Δ from target"])` raises `KeyError` on the missing
column label; the raised exception is modelled as `Except.error`. -/
def closest_scenarios (seconds target_amount : ℚ) (units_list : List TimeUnit)
    (coins_list : List (String × ℚ)) (top_k : Nat) :
    Except String (List ScenarioRow × List ScenarioRow) :=
  let rows := enum_rows seconds target_amount units_list coins_list
  if rows.isEmpty then Except.error "KeyError: Abs delta from target"
  else
    let df := sort_values_by_delta rows
    Except.ok (df.take top_k, df)

/-- Model of `add_future_seconds` (`src/app.py` lines 106-109). -/
def add_future_seconds (add_days add_years : ℚ) : ℚ :=
  (add_days + add_years * (3652425/10000)) * 86400

/-- Round-half-to-even at integer precision: the rounding python's
`format(x, ",.0f")` applies to the displayed unit count in `make_narrative`
(`src/app.py` line 125). -/
def round_half_even (q : ℚ) : ℤ :=
  if q - ⌊q⌋ < 1/2 then ⌊q⌋
  else if 1/2 < q - ⌊q⌋ then ⌊q⌋ + 1
  else if ⌊q⌋ % 2 = 0 then ⌊q⌋ else ⌊q⌋ + 1

/-- Semantic content of the sentence assembled by `make_narrative`
(`src/app.py` lines 111-128): the dates printed, the raw unit count, the
unit count as displayed (`:,.0f`, rounded to an integer), the unit label
suffix (`'' if units_val == 1 else 's'`), the (optionally inclusive)
displayed day count, and the rate and amount rendered with `money`.  String
layout (separators, currency glyphs) carries no further information and is
not modelled. -/
structure Narrative where
  start_date : ℤ
  end_date : ℤ
  units_val : ℚ
  units_display : ℤ
  unit : TimeUnit
  suffix : String
  disp_days : ℚ
  rate : ℚ
  amount : ℚ
deriving DecidableEq, Repr

/-- The dict lookup selecting the displayed unit count in `make_narrative`
(`src/app.py` lines 113-118). -/
def units_val_of (au : AllUnits) : TimeUnit → ℚ
  | TimeUnit.second => au.seconds
  | TimeUnit.minute => au.minutes
  | TimeUnit.hour => au.hours
  | TimeUnit.day => au.days

/-- Model of `make_narrative` (`src/app.py` lines 111-128).  The datetime
arguments are represented by the calendar dates they print as.  The day
count for display is `au["days"] + (1.0 if inclusive_days_flag else 0.0)`
(line 121). -/
def make_narrative (start_date end_date : ℤ) (seconds : ℚ) (unit : TimeUnit)
    (rate amount : ℚ) (inclusive_days_flag : Bool) : Narrative :=
  let au := all_units seconds
  let units_val := units_val_of au unit
  { start_date := start_date, end_date := end_date, units_val := units_val,
    units_display := round_half_even units_val, unit := unit,
    suffix := if units_val = 1 then "" else "s",
    disp_days := au.days + (if inclusive_days_flag then 1 else 0),
    rate := rate, amount := amount }

/-- Output of one run of the app's main computation that the claims refer
to: the resolved span, the base seconds, the hero amount, the displayed day
count of the breakdown column, and the narrative. -/
structure AppOutput where
  start_dt : ℚ
  end_dt : ℚ
  base_seconds : ℚ
  amount_now : ℚ
  days_disp : ℚ
  narrative : Narrative
deriving DecidableEq, Repr

/-- Model of the app's main script flow for one set of inputs (`src/app.py`
lines 222-276 and 325-328, without the optional future projection): validate
the dates first (`if end_date < start_date: st.error(...); st.stop()`,
lines 223-225, modelled as `Except.error` before any duration arithmetic),
then build the span (`start_of_day` / `end_of_day`, lines 228-229), the base
seconds (line 232), the hero amount (line 243), the displayed day count
(line 264), and the narrative (line 328). -/
def app_main (start_date end_date : ℤ) (unit : TimeUnit) (applied_rate : ℚ)
    (inclusive_days : Bool) : Except String AppOutput :=
  if end_date < start_date then Except.error "End date must be on or after the date of loss."
  else
    let start_dt := start_of_day start_date
    let end_dt := end_of_day end_date
    let base_seconds := elapsed_seconds start_dt end_dt
    let amount_now := compute_amount base_seconds unit applied_rate
    let au_base := all_units base_seconds
    let days_disp := au_base.days + (if inclusive_days then 1 else 0)
    Except.ok
      { start_dt := start_dt, end_dt := end_dt, base_seconds := base_seconds,
        amount_now := amount_now, days_disp := days_disp,
        narrative := make_narrative start_date end_date base_seconds unit applied_rate
          amount_now inclusive_days }

/-- The displayed unit count of the narrative is the plain unit conversion
`seconds / TIME_UNITS unit`, for every unit. -/
theorem units_val_of_all_units (seconds : ℚ) (u : TimeUnit) :
    units_val_of (all_units seconds) u = seconds / TIME_UNITS u := by
  cases u <;> simp [units_val_of, all_units, TIME_UNITS]

/-- C1: whenever the elapsed units `toUnit(d, u)` are zero, the rate-solving
path reports the degenerate-solve condition as an error message ("Cannot
solve for rate: zero elapsed units.") and never surfaces a numeric result;
in the source, `solve_rate_for_target` signals this case with a NaN sentinel
(`none` in this model) which the caller detects with `math.isfinite` and
turns into the user-visible error rather than displaying a non-finite
value. -/
theorem solve_rate_zero_units_reports_error (seconds : ℚ) (u : TimeUnit) (target_amount : ℚ)
    (h : toUnit seconds u = 0) :
    target_solve_report seconds u target_amount =
      Except.error "Cannot solve for rate: zero elapsed units." ∧
    ∀ r : ℚ, target_solve_report seconds u target_amount ≠ Except.ok r := by
  have h0 : seconds / TIME_UNITS u = 0 := h
  constructor
  · unfold target_solve_report solve_rate_for_target
    simp [h0]
  · intro r
    unfold target_solve_report solve_rate_for_target
    simp [h0]

/-- Witness for C1: a zero-duration span with unit `second` and target 100
satisfies the hypothesis, and the solve path reports the error. -/
theorem solve_rate_zero_units_reports_error_witness :
    toUnit 0 TimeUnit.second = 0 ∧
    target_solve_report 0 TimeUnit.second 100 =
      Except.error "Cannot solve for rate: zero elapsed units." :=
  ⟨by norm_num [toUnit, TIME_UNITS],
   (solve_rate_zero_units_reports_error 0 TimeUnit.second 100 (by norm_num [toUnit, TIME_UNITS])).1⟩

/-- C3 (failing input): scenario search with an empty unit list, or an empty
preset list, does not return an empty result set; `pd.DataFrame([])` has no
columns, so the `sort_values` call raises `KeyError` on the missing delta
column, modelled here as the `Except.error` branch of `closest_scenarios`. -/
theorem closest_scenarios_empty_input_raises :
    closest_scenarios 1 400000 [] COIN_PRESETS 20 =
      Except.error "KeyError: Abs delta from target" ∧
    closest_scenarios 1 400000 [TimeUnit.second, TimeUnit.minute] [] 20 =
      Except.error "KeyError: Abs delta from target" := by
  constructor <;> rfl

/-- C4: when the end date precedes the start date, the app halts with the
validation error before any duration arithmetic, and no computation output
(in particular no duration) is produced. -/
theorem end_before_start_raises_invalid_range (start_date end_date : ℤ) (u : TimeUnit)
    (rate : ℚ) (inclusive : Bool) (h : end_date < start_date) :
    app_main start_date end_date u rate inclusive =
      Except.error "End date must be on or after the date of loss." ∧
    ∀ o : AppOutput, app_main start_date end_date u rate inclusive ≠ Except.ok o := by
  constructor
  · unfold app_main
    rw [if_pos h]
  · intro o
    unfold app_main
    rw [if_pos h]
    simp

/-- Witness for C4: end date ordinal 0 strictly precedes start date
ordinal 1, and the app run yields the validation error. -/
theorem end_before_start_raises_invalid_range_witness :
    (0 : ℤ) < 1 ∧
    app_main 1 0 TimeUnit.second 1 false =
      Except.error "End date must be on or after the date of loss." :=
  ⟨by norm_num,
   (end_before_start_raises_invalid_range 1 0 TimeUnit.second 1 false (by norm_num)).1⟩

/-- C5: for positive durations, the computed amount is the converted unit
count times the rate, and solving the rate back from that amount recovers
the rate exactly (round-trip). -/
theorem compute_amount_formula_and_roundtrip (seconds : ℚ) (u : TimeUnit) (rate : ℚ)
    (h : 0 < seconds) :
    compute_amount seconds u rate = seconds / TIME_UNITS u * rate ∧
    solve_rate_for_target seconds u (compute_amount seconds u rate) = some rate := by
  have hu : 0 < TIME_UNITS u := by cases u <;> norm_num [TIME_UNITS]
  have hdiv : 0 < seconds / TIME_UNITS u := div_pos h hu
  refine ⟨rfl, ?_⟩
  unfold solve_rate_for_target compute_amount
  rw [if_pos hdiv]
  exact congrArg some (mul_div_cancel_left₀ rate (ne_of_gt hdiv))

/-- Witness for C5: one hour (3600 s) at a quarter per hour computes to 0.25
and the solved rate is a quarter again. -/
theorem compute_amount_formula_and_roundtrip_witness :
    (0 : ℚ) < 3600 ∧
    (compute_amount 3600 TimeUnit.hour (1/4) = 3600 / TIME_UNITS TimeUnit.hour * (1/4) ∧
     solve_rate_for_target 3600 TimeUnit.hour (compute_amount 3600 TimeUnit.hour (1/4)) =
       some (1/4)) :=
  ⟨by norm_num, compute_amount_formula_and_roundtrip 3600 TimeUnit.hour (1/4) (by norm_num)⟩

/-- C6: a date-only span from any date D to the same date D passes
validation, resolves to start = local midnight of D and end = the last
representable instant of D, and yields a duration of one full calendar day
minus one microsecond tick, 86399.999999 seconds exactly, never zero. -/
theorem same_day_span_full_day_minus_tick (d : ℤ) (u : TimeUnit) (rate : ℚ) (inclusive : Bool) :
    (app_main d d u rate inclusive).map (fun o => (o.start_dt, o.end_dt, o.base_seconds)) =
      Except.ok (start_of_day d, end_of_day d, 86399999999/1000000) ∧
    (app_main d d u rate inclusive).map (fun o => o.base_seconds) ≠ Except.ok 0 := by
  have hlt : ¬ d < d := lt_irrefl d
  have hspan : elapsed_seconds (start_of_day d) (end_of_day d) = 86399999999/1000000 := by
    unfold elapsed_seconds start_of_day end_of_day
    rw [max_eq_left (by ring_nf; norm_num)]
    ring
  constructor
  · unfold app_main
    rw [if_neg hlt]
    simp [Except.map, hspan]
  · unfold app_main
    rw [if_neg hlt]
    simp [Except.map, hspan]

/-- C7: every row produced by the scenario-grid enumeration carries a
percent delta of "no value" (`none`, modelling `np.nan`) exactly when the
target amount is zero, and `abs_delta / target * 100` otherwise. -/
theorem pct_delta_none_iff_zero_target (seconds target_amount : ℚ)
    (units_list : List TimeUnit) (coins_list : List (String × ℚ)) (row : ScenarioRow)
    (hrow : row ∈ enum_rows seconds target_amount units_list coins_list) :
    row.pct_delta =
      if target_amount = 0 then none else some (row.abs_delta / target_amount * 100) := by
  unfold enum_rows at hrow
  simp only [List.mem_flatMap, List.mem_map] at hrow
  obtain ⟨tu, _, c, _, rfl⟩ := hrow
  simp [scenario_row]

/-- Witness for C7: with target 0, the single row of a one-by-one grid is a
member of the enumeration and its percent delta is `none`. -/
theorem pct_delta_none_iff_zero_target_witness :
    scenario_row 1 TimeUnit.second "Penny" (1/100) 0 ∈
      enum_rows 1 0 [TimeUnit.second] [("Penny", 1/100)] ∧
    (scenario_row 1 TimeUnit.second "Penny" (1/100) 0).pct_delta =
      (if (0 : ℚ) = 0 then none
       else some ((scenario_row 1 TimeUnit.second "Penny" (1/100) 0).abs_delta / 0 * 100)) :=
  ⟨by simp [enum_rows],
   pct_delta_none_iff_zero_target 1 0 [TimeUnit.second] [("Penny", 1/100)]
     (scenario_row 1 TimeUnit.second "Penny" (1/100) 0) (by simp [enum_rows])⟩

/-- C8 (noninterference of the inclusive-days display flag): two runs of the
app differing only in the flag produce identical base seconds and identical
monetary amounts; the flag's entire effect is to add exactly 1.0 to the
displayed day counts (breakdown column and narrative), and every other
narrative component is unchanged. -/
theorem inclusive_flag_noninterference (start_date end_date : ℤ) (u : TimeUnit) (rate : ℚ) :
    (app_main start_date end_date u rate true).map (fun o => o.amount_now) =
      (app_main start_date end_date u rate false).map (fun o => o.amount_now) ∧
    (app_main start_date end_date u rate true).map (fun o => o.base_seconds) =
      (app_main start_date end_date u rate false).map (fun o => o.base_seconds) ∧
    (app_main start_date end_date u rate true).map (fun o => o.days_disp) =
      (app_main start_date end_date u rate false).map (fun o => o.days_disp + 1) ∧
    (app_main start_date end_date u rate true).map (fun o => o.narrative.disp_days) =
      (app_main start_date end_date u rate false).map (fun o => o.narrative.disp_days + 1) ∧
    (app_main start_date end_date u rate true).map
        (fun o => (o.narrative.units_val, o.narrative.units_display, o.narrative.suffix,
          o.narrative.rate, o.narrative.amount)) =
      (app_main start_date end_date u rate false).map
        (fun o => (o.narrative.units_val, o.narrative.units_display, o.narrative.suffix,
          o.narrative.rate, o.narrative.amount)) := by
  by_cases h : end_date < start_date
  · simp only [app_main, if_pos h]
    simp [Except.map]
  · simp only [app_main, if_neg h]
    simp [Except.map, make_narrative]

/-- C9 (counterexample): the narrative for the one-day date-only span (the
app's own base duration 86399.999999 s) with unit "day" has a unit count
that rounds to exactly 1 for display, yet the rendered label is plural
("1 days"): pluralization tests `units_val == 1` exactly, not the rounded
count. -/
theorem plural_label_despite_rounding_to_one :
    (make_narrative 0 0 (86399999999/1000000) TimeUnit.day 1 1 false).units_display = 1 ∧
    (make_narrative 0 0 (86399999999/1000000) TimeUnit.day 1 1 false).suffix = "s" := by
  have hval : units_val_of (all_units (86399999999/1000000)) TimeUnit.day =
      86399999999/86400000000 := by
    rw [units_val_of_all_units]
    norm_num [TIME_UNITS]
  have hfloor : ⌊(86399999999/86400000000 : ℚ)⌋ = 0 := by
    rw [Int.floor_eq_zero_iff]
    constructor <;> norm_num
  constructor
  · show round_half_even (units_val_of (all_units (86399999999/1000000)) TimeUnit.day) = 1
    rw [hval]
    unfold round_half_even
    rw [hfloor]
    norm_num
  · show (if units_val_of (all_units (86399999999/1000000)) TimeUnit.day = 1 then "" else "s") = "s"
    rw [hval]
    norm_num

/-- C9 (amended): the narrative's unit label is singular exactly when the
raw unit count `seconds / TIME_UNITS unit` equals 1 (before any display
rounding), and plural otherwise; in particular a span of exactly one day's
seconds with unit "day" is rendered singular. -/
theorem suffix_singular_iff_exactly_one (start_date end_date : ℤ) (seconds : ℚ) (u : TimeUnit)
    (rate amount : ℚ) (flag : Bool) :
    ((make_narrative start_date end_date seconds u rate amount flag).suffix = "" ↔
      seconds / TIME_UNITS u = 1) ∧
    (make_narrative start_date end_date 86400 TimeUnit.day rate amount flag).suffix = "" := by
  constructor
  · show (if units_val_of (all_units seconds) u = 1 then "" else "s") = "" ↔
      seconds / TIME_UNITS u = 1
    rw [units_val_of_all_units]
    split_ifs with h
    · simp [h]
    · simp [h]
  · show (if units_val_of (all_units 86400) TimeUnit.day = 1 then "" else "s") = ""
    rw [units_val_of_all_units]
    norm_num [TIME_UNITS]

/-- C10: `elapsed_seconds` is the clamp `max(end - start, 0)`; it is total,
never negative, and when the end instant precedes the start instant it
silently returns 0.0 instead of raising. -/
theorem elapsed_seconds_clamps_nonnegative (start_dt end_dt : ℚ) :
    elapsed_seconds start_dt end_dt = max (end_dt - start_dt) 0 ∧
    0 ≤ elapsed_seconds start_dt end_dt ∧
    (end_dt < start_dt → elapsed_seconds start_dt end_dt = 0) := by
  refine ⟨rfl, le_max_right _ _, fun h => ?_⟩
  unfold elapsed_seconds
  exact max_eq_right (sub_nonpos.mpr h.le)

/-- Witness for C10: with end 2 before start 5, the hypothesis holds and the
elapsed seconds are silently clamped to 0. -/
theorem elapsed_seconds_clamps_nonnegative_witness :
    (2 : ℚ) < 5 ∧ elapsed_seconds 5 2 = 0 :=
  ⟨by norm_num, (elapsed_seconds_clamps_nonnegative 5 2).2.2 (by norm_num)⟩
